import Mathlib

/-!
Verification of the SEO blog generator API pipeline (`src/main.py`).

The program is a single FastAPI endpoint `POST /run-pipeline` driving a
linear orchestration pipeline `full_pipeline` over a mutable state dict:
it extracts a YouTube video id from `video_url` with a regex, fetches a
transcript (external collaborator `get_transcript_with_backoff`), and on
success threads the state through eleven external async collaborator
steps, finally answering `{"Final_Blog": state["final_blog"]["Polished_Blog"]}`.
An empty or retry-exhausted transcript short-circuits to an
`{"error": ...}` body (HTTP 200); any exception maps to HTTP 500 with
the exception message as detail.

We embed the Python values that flow through this code as an inductive
`PyVal` (None, str, dict), the state dict as an association list, the
external collaborators as an opaque record of functions returning
`Except` (an exception is an `Except.error` carrying `str(e)`), and the
orchestrator as a fold over its fixed action list that also records a
trace of the collaborator invocations together with the state each one
received.
-/

/-- A Python value as it appears in this pipeline's state dict:
`None`, a `str`, or a `dict` with string keys (modelled as an
association list in insertion order, first binding wins on lookup). -/
inductive PyVal where
  | none
  | str (s : String)
  | dict (entries : List (String × PyVal))

/-- The pipeline state: a Python dict with string keys. -/
abbrev PyState := List (String × PyVal)

/-- A Python exception, represented by its message `str(e)`. -/
abbrev PyErr := String

/-- Dict lookup: `d[k]` as an `Option` (first binding wins). -/
def dget (st : PyState) (k : String) : Option PyVal :=
  match st with
  | [] => Option.none
  | (k', v) :: rest => if k' = k then some v else dget rest k

/-- Dict update `d[k] = v`: replaces the first binding of `k` in place,
or appends a new binding when `k` is absent (Python dict semantics). -/
def dset (st : PyState) (k : String) (v : PyVal) : PyState :=
  match st with
  | [] => [(k, v)]
  | (k', v') :: rest => if k' = k then (k', v) :: rest else (k', v') :: dset rest k v

/-- Python `d.get(k)`: the stored value, or `None` when absent. -/
def pyGet (st : PyState) (k : String) : PyVal :=
  (dget st k).getD .none

/-- Python truthiness for the values of our universe:
`None` is falsy, a `str` is truthy iff nonempty, a `dict` iff nonempty. -/
def truthy : PyVal → Bool
  | .none => false
  | .str s => s != ""
  | .dict es => !es.isEmpty

/-- Python `x or ""`. -/
def orEmptyStr (v : PyVal) : PyVal :=
  if truthy v then v else .str ""

/-- A single-quote character, used to render Python exception messages
such as `str(KeyError("k"))` without writing a quote in a literal. -/
def squote : String := String.singleton (Char.ofNat 39)

/-- Python `str(KeyError(k))`: the key wrapped in single quotes. -/
def keyErrorMsg (k : String) : String := squote ++ k ++ squote

/-- Python `str(x)` as used by an f-string interpolation: a `str` is
inserted verbatim and `None` prints as `None`; for a dict Python would
print its `repr`, which we render opaquely (this case is unreachable on
every path the theorems below take, because `re.search` has already
raised a `TypeError` on a non-string `video_url` by the time the only
f-string of the pipeline runs). -/
def fstr : PyVal → String
  | .str s => s
  | .none => "None"
  | .dict _ => "\x7b...\x7d"

/-- One character of the regex class `[0-9A-Za-z_-]`. -/
def isIdChar (c : Char) : Bool :=
  c.isAlpha || c.isDigit || c = '_' || c = '-'

/-- The body of the regex group `([0-9A-Za-z_-]{11})`: at the current
position, consume exactly eleven id characters if available. -/
def matchIdAt (cs : List Char) : Option (List Char) :=
  if (cs.take 11).length = 11 ∧ (cs.take 11).all isIdChar then some (cs.take 11) else none

/-- One attempt of `(?:v=|\/)([0-9A-Za-z_-]{11})` anchored at the
current position: the literal `v=` or `/`, then the eleven-char group.
The two alternatives start with different characters, so at most one
applies at a given position. -/
def tryAt (cs : List Char) : Option (List Char) :=
  match cs with
  | 'v' :: '=' :: rest => matchIdAt rest
  | '/' :: rest => matchIdAt rest
  | _ => Option.none

/-- Python `re.search`: try the pattern at each position left to right and
return the group of the leftmost match. -/
def searchVideoId : List Char → Option (List Char)
  | [] => Option.none
  | c :: rest =>
    match tryAt (c :: rest) with
    | some id => some id
    | Option.none => searchVideoId rest

/-- The function `extract_video_id(state)` (src/main.py:46-52): reads
`state.get("video_url") or ""`, runs
`re.search(r"(?:v=|\/)([0-9A-Za-z_-]{11})", video_url)`; on a match
writes `state["video_id"] = match.group(1)` and returns the state, else
raises `ValueError("Could not extract video ID from URL")`.  An
`Except.error` carries, next to the message, the state as it stands
when the exception leaves the function (no write precedes either
raise).  A non-string truthy `video_url` makes `re.search` itself raise
a `TypeError`. -/
def extract_video_id (state : PyState) : Except (PyErr × PyState) PyState :=
  match orEmptyStr (pyGet state "video_url") with
  | .str video_url =>
    match searchVideoId video_url.toList with
    | some id => .ok (dset state "video_id" (.str (String.mk id)))
    | Option.none => .error ("Could not extract video ID from URL", state)
  | _ => .error ("expected string or bytes-like object", state)

-- ## Spec-side description of the regex, for claim C3

/-- The spec's pattern occurs at position `n` of `cs` with group `id`:
after dropping `n` characters the text continues with `v=` or `/`
followed by the eleven id characters `id`. -/
def specMatchAt (cs : List Char) (n : Nat) (id : List Char) : Prop :=
  id.length = 11 ∧ (∀ c ∈ id, isIdChar c = true) ∧
    (∃ post, cs.drop n = 'v' :: '=' :: (id ++ post) ∨ cs.drop n = '/' :: (id ++ post))

/-- The spec's pattern occurs somewhere in `cs`. -/
def hasVideoIdPattern (cs : List Char) : Prop :=
  ∃ n id, specMatchAt cs n id

-- ## The external collaborators and the orchestrator

/-- The external collaborator functions imported by `src/main.py`.
Each is opaque to the orchestrator: an arbitrary function over the
state that either returns (for the fetcher, the transcript string; for
the others, the state as left after the call, covering both in-place
mutation and a returned new state) or raises an exception carried as
`Except.error (str e)`. -/
structure Collaborators where
  get_transcript_with_backoff : PyState → Except PyErr String
  extract_specific_details : PyState → Except PyErr PyState
  generate_topic_keyword : PyState → Except PyErr PyState
  generate_intro : PyState → Except PyErr PyState
  refine_intro : PyState → Except PyErr PyState
  generate_guide : PyState → Except PyErr PyState
  generate_issue_troubleshooting : PyState → Except PyErr PyState
  generate_conclusion : PyState → Except PyErr PyState
  generate_cta : PyState → Except PyErr PyState
  generate_customization_tips : PyState → Except PyErr PyState
  domain_aligned : PyState → Except PyErr PyState
  rewrite_blog : PyState → Except PyErr PyState

/-- The eleven awaited collaborator steps of `full_pipeline`, in source
order (src/main.py:66-108). -/
inductive GenStep where
  | extractSpecificDetails
  | generateTopicKeyword
  | generateIntro
  | refineIntro
  | generateGuide
  | generateIssueTroubleshooting
  | generateConclusion
  | generateCta
  | generateCustomizationTips
  | domainAligned
  | rewriteBlog

/-- Dispatch a `GenStep` to its collaborator function. -/
def applyGen (C : Collaborators) : GenStep → PyState → Except PyErr PyState
  | .extractSpecificDetails => C.extract_specific_details
  | .generateTopicKeyword => C.generate_topic_keyword
  | .generateIntro => C.generate_intro
  | .refineIntro => C.refine_intro
  | .generateGuide => C.generate_guide
  | .generateIssueTroubleshooting => C.generate_issue_troubleshooting
  | .generateConclusion => C.generate_conclusion
  | .generateCta => C.generate_cta
  | .generateCustomizationTips => C.generate_customization_tips
  | .domainAligned => C.domain_aligned
  | .rewriteBlog => C.rewrite_blog

/-- The assignment `state["combined_data_keyword_specific_details"] = {...}`
(src/main.py:72-75). -/
def setCombinedKeywordDetails (s : PyState) : PyState :=
  dset s "combined_data_keyword_specific_details" (.dict
    [("topic_keyword", pyGet s "extracted_keywords"),
     ("specific_details", pyGet s "extracted_section")])

/-- The assignment `state["combined_data"] = {...}` (src/main.py:96-103). -/
def setCombinedData (s : PyState) : PyState :=
  dset s "combined_data" (.dict
    [("introduction", pyGet s "refined_intro"),
     ("guide", pyGet s "guide"),
     ("issue_troubleshoot", pyGet s "issue_troubleshoot"),
     ("conclusion", pyGet s "conclusion"),
     ("cta", pyGet s "cta"),
     ("customization_tips", pyGet s "customization_tips")])

/-- One statement of the straight-line body of `full_pipeline` after
the transcript has been stored: either an awaited collaborator call or
one of the two dict assignments performed by the orchestrator itself. -/
inductive OrchAction where
  | gen (g : GenStep)
  | setCombinedKeywordDetails
  | setCombinedData

/-- The statements of src/main.py:66-108 in source order. -/
def pipelineActions : List OrchAction :=
  [.gen .extractSpecificDetails,
   .gen .generateTopicKeyword,
   .setCombinedKeywordDetails,
   .gen .generateIntro,
   .gen .refineIntro,
   .gen .generateGuide,
   .gen .generateIssueTroubleshooting,
   .gen .generateConclusion,
   .gen .generateCta,
   .gen .generateCustomizationTips,
   .setCombinedData,
   .gen .domainAligned,
   .gen .rewriteBlog]

/-- A recorded external call: the transcript fetch or a generator step. -/
inductive TraceStep where
  | fetch
  | gen (g : GenStep)

/-- Run a list of pipeline actions from a state.  Returns the result
(the state after the last action, or the first exception raised) and
the trace of collaborator invocations, each paired with the state it
received; on an exception the remaining actions never run. -/
def runActions (C : Collaborators) :
    List OrchAction → PyState → Except PyErr PyState × List (TraceStep × PyState)
  | [], s => (.ok s, [])
  | .gen g :: rest, s =>
    match applyGen C g s with
    | .ok s' =>
      ((runActions C rest s').1, (.gen g, s) :: (runActions C rest s').2)
    | .error e => (.error e, [(.gen g, s)])
  | .setCombinedKeywordDetails :: rest, s =>
    runActions C rest (setCombinedKeywordDetails s)
  | .setCombinedData :: rest, s =>
    runActions C rest (setCombinedData s)

/-- Python `needle in hay` on strings: `pat` occurs as a contiguous
substring. -/
def strContains (hay pat : String) : Bool :=
  go hay.toList
where
  go : List Char → Bool
  | [] => pat.toList.isPrefixOf []
  | c :: rest => pat.toList.isPrefixOf (c :: rest) || go rest

/-- The subscript `state["final_blog"]` then `["Polished_Blog"]` (src/main.py:109):
a missing dict key raises `KeyError`, subscripting a non-dict raises
`TypeError`, with `str(e)` as rendered by CPython. -/
def pyIndexState (s : PyState) (k : String) : Except PyErr PyVal :=
  match dget s k with
  | some v => .ok v
  | Option.none => .error (keyErrorMsg k)

/-- Subscript a value: `v[k]`.  Only a dict supports it in our value
universe. -/
def pyIndexVal (v : PyVal) (k : String) : Except PyErr PyVal :=
  match v with
  | .dict entries =>
    match dget entries k with
    | some w => .ok w
    | Option.none => .error (keyErrorMsg k)
  | .str _ => .error "string indices must be integers"
  | .none => .error (keyErrorMsg "NoneType" ++ " object is not subscriptable")

/-- The orchestrator `full_pipeline(state)` (src/main.py:54-111).  Besides the Python
function's result (`Except`: normal return or exception), it yields the
trace of external collaborator invocations.  Faithful to the source:
`video_url` is read up front with `or ""`; `extract_video_id` runs
first (its exception aborts with an empty trace); the transcript fetch
short-circuits to the `{"error": ...}` dict on an empty or
retry-exhausted transcript; otherwise the transcript is stored and the
thirteen statements of `pipelineActions` run in order; finally
`results["Final_Blog"] = state["final_blog"]["Polished_Blog"]` builds
the one-key result dict. -/
def full_pipeline (C : Collaborators) (state : PyState) :
    Except PyErr PyState × List (TraceStep × PyState) :=
  let video_url := orEmptyStr (pyGet state "video_url")
  match extract_video_id state with
  | .error (e, _) => (.error e, [])
  | .ok s1 =>
    match C.get_transcript_with_backoff s1 with
    | .error e => (.error e, [(.fetch, s1)])
    | .ok transcript =>
      if transcript = "" || strContains transcript "Failed after multiple retries" then
        (.ok [("error", .str ("Transcript not available for: " ++ fstr video_url))],
         [(.fetch, s1)])
      else
        let s2 := dset s1 "transcript" (.str transcript)
        let res := runActions C pipelineActions s2
        ((match res.1 with
          | .ok sEnd =>
            match pyIndexState sEnd "final_blog" with
            | .ok fb =>
              match pyIndexVal fb "Polished_Blog" with
              | .ok v => .ok [("Final_Blog", v)]
              | .error e => .error e
            | .error e => .error e
          | .error e => .error e),
         (.fetch, s1) :: res.2)

-- ## The HTTP endpoint

/-- The request body of `POST /run-pipeline` (pydantic guarantees the
three fields are strings). -/
structure PipelineRequest where
  video_url : String
  domain_url : String
  raw_blog : String

/-- The endpoint's observable response: a JSON body returned with
HTTP 200, or an `HTTPException` with a status code and `detail`. -/
inductive HttpResponse where
  | ok (body : PyState)
  | httpError (status : Nat) (detail : String)

/-- The HTTP status of a response: a plain return is delivered as 200. -/
def HttpResponse.statusCode : HttpResponse → Nat
  | .ok _ => 200
  | .httpError st _ => st

/-- The `initial_state` dict built by the endpoint (src/main.py:115-132). -/
def initial_state (req : PipelineRequest) : PyState :=
  [("video_url", .str req.video_url),
   ("domain_url", .str req.domain_url),
   ("raw_blog", .str req.raw_blog),
   ("video_id", .none),
   ("transcript", .none),
   ("topic_keyword", .none),
   ("specific_details", .none),
   ("introduction", .none),
   ("refined_intro", .none),
   ("guide", .none),
   ("issue_troubleshoot", .none),
   ("conclusion", .none),
   ("cta", .none),
   ("customization_tips", .none),
   ("domain_aligned", .none),
   ("final_blog", .none)]

/-- The endpoint `run_pipeline(request)` (src/main.py:113-138): build the initial
state, await `full_pipeline`, return its result; any exception becomes
`HTTPException(status_code=500, detail=str(e))`. -/
def run_pipeline (C : Collaborators) (req : PipelineRequest) : HttpResponse :=
  match (full_pipeline C (initial_state req)).1 with
  | .ok results => .ok results
  | .error e => .httpError 500 e

/-- The collaborator invocations performed while serving `req`. -/
def pipelineTrace (C : Collaborators) (req : PipelineRequest) :
    List (TraceStep × PyState) :=
  (full_pipeline C (initial_state req)).2

-- ## Concrete fixtures used by witnesses and counterexamples

/-- A request with a well-formed `v=`-style video URL. -/
def wReq : PipelineRequest :=
  ⟨"v=abcdefghijk", "https://example.com", "draft"⟩

/-- The state after `extract_video_id` on `wReq`'s initial state. -/
def wS1 : PyState := dset (initial_state wReq) "video_id" (.str "abcdefghijk")

/-- The state `wS1` after the transcript "T" is stored. -/
def wS2 : PyState := dset wS1 "transcript" (.str "T")

/-- The state `wS2` after the keyword/details combination is stored. -/
def wS3 : PyState := setCombinedKeywordDetails wS2

/-- The state `wS3` after the six-section combination is stored. -/
def wS4 : PyState := setCombinedData wS3

/-- The state `wS4` after the rewriter stored its polished blog. -/
def wS5 : PyState := dset wS4 "final_blog" (.dict [("Polished_Blog", .str "B")])

/-- Well-behaved collaborators: the fetcher returns the transcript "T",
every generator returns the state unchanged, and the rewriter stores a
`final_blog` dict holding `Polished_Blog`. -/
def idCollab : Collaborators where
  get_transcript_with_backoff := fun _ => .ok "T"
  extract_specific_details := fun s => .ok s
  generate_topic_keyword := fun s => .ok s
  generate_intro := fun s => .ok s
  refine_intro := fun s => .ok s
  generate_guide := fun s => .ok s
  generate_issue_troubleshooting := fun s => .ok s
  generate_conclusion := fun s => .ok s
  generate_cta := fun s => .ok s
  generate_customization_tips := fun s => .ok s
  domain_aligned := fun s => .ok s
  rewrite_blog := fun s => .ok (dset s "final_blog" (.dict [("Polished_Blog", .str "B")]))

/-- Like `idCollab` but the intro generator raises. -/
def failCollab : Collaborators :=
  { idCollab with generate_intro := fun _ => .error "boom" }

/-- Like `idCollab` but the transcript fetch returns the empty string. -/
def emptyFetchCollab : Collaborators :=
  { idCollab with get_transcript_with_backoff := fun _ => .ok "" }

-- ## Lemmas about the regex search

lemma matchIdAt_eq_some_iff (cs id : List Char) :
    matchIdAt cs = some id ↔
      id.length = 11 ∧ (∀ c ∈ id, isIdChar c = true) ∧ ∃ post, cs = id ++ post := by
  unfold matchIdAt
  constructor
  · intro h
    split at h
    · rename_i hcond
      injection h with h
      subst h
      exact ⟨hcond.1, List.all_eq_true.1 hcond.2, cs.drop 11,
        (List.take_append_drop 11 cs).symm⟩
    · exact absurd h (by simp)
  · rintro ⟨hlen, hall, post, rfl⟩
    have htake : (id ++ post).take 11 = id := by
      rw [← hlen]; exact List.take_left id post
    rw [htake, if_pos ⟨hlen, List.all_eq_true.2 hall⟩]

lemma tryAt_nil : tryAt [] = Option.none := rfl

lemma tryAt_eq_some_iff (cs id : List Char) :
    tryAt cs = some id ↔
      id.length = 11 ∧ (∀ c ∈ id, isIdChar c = true) ∧
        ∃ post, cs = 'v' :: '=' :: (id ++ post) ∨ cs = '/' :: (id ++ post) := by
  constructor
  · intro h
    rw [tryAt.eq_def] at h
    split at h
    · obtain ⟨hlen, hall, post, hpost⟩ := (matchIdAt_eq_some_iff _ id).1 h
      exact ⟨hlen, hall, post, Or.inl (by rw [hpost])⟩
    · obtain ⟨hlen, hall, post, hpost⟩ := (matchIdAt_eq_some_iff _ id).1 h
      exact ⟨hlen, hall, post, Or.inr (by rw [hpost])⟩
    · exact absurd h (by simp)
  · rintro ⟨hlen, hall, post, hcs | hcs⟩ <;> subst hcs
    · show matchIdAt (id ++ post) = some id
      exact (matchIdAt_eq_some_iff _ id).2 ⟨hlen, hall, post, rfl⟩
    · show matchIdAt (id ++ post) = some id
      exact (matchIdAt_eq_some_iff _ id).2 ⟨hlen, hall, post, rfl⟩

lemma specMatchAt_iff_tryAt (cs : List Char) (n : Nat) (id : List Char) :
    specMatchAt cs n id ↔ tryAt (cs.drop n) = some id := by
  rw [tryAt_eq_some_iff]
  exact Iff.rfl

lemma searchVideoId_eq_none_iff (cs : List Char) :
    searchVideoId cs = Option.none ↔ ∀ n, tryAt (cs.drop n) = Option.none := by
  induction cs with
  | nil =>
    constructor
    · intro _ n
      rw [List.drop_nil, tryAt_nil]
    · intro _
      rfl
  | cons c rest ih =>
    simp only [searchVideoId]
    cases h : tryAt (c :: rest) with
    | some id =>
      simp only [h]
      constructor
      · intro hcon
        exact absurd hcon (by simp)
      · intro hall
        have h0 := hall 0
        rw [List.drop_zero, h] at h0
        exact absurd h0 (by simp)
    | none =>
      simp only [h, ih]
      constructor
      · intro hall n
        cases n with
        | zero => rw [List.drop_zero]; exact h
        | succ m => rw [List.drop_succ_cons]; exact hall m
      · intro hall m
        have := hall (m + 1)
        rwa [List.drop_succ_cons] at this

lemma searchVideoId_eq_some_iff (cs id : List Char) :
    searchVideoId cs = some id ↔
      ∃ n, tryAt (cs.drop n) = some id ∧
        ∀ m, m < n → tryAt (cs.drop m) = Option.none := by
  induction cs with
  | nil =>
    simp only [searchVideoId, List.drop_nil, tryAt_nil]
    constructor
    · intro h
      exact absurd h (by simp)
    · rintro ⟨n, hn, -⟩
      exact absurd hn (by simp)
  | cons c rest ih =>
    simp only [searchVideoId]
    cases h : tryAt (c :: rest) with
    | some jd =>
      simp only [h]
      constructor
      · intro hh
        injection hh with hh
        refine ⟨0, ?_, fun m hm => absurd hm (Nat.not_lt_zero m)⟩
        rw [List.drop_zero, h, hh]
      · rintro ⟨n, hn, hmin⟩
        cases n with
        | zero =>
          rw [List.drop_zero, h] at hn
          injection hn with hn
          rw [hn]
        | succ m =>
          have h0 := hmin 0 (Nat.succ_pos m)
          rw [List.drop_zero, h] at h0
          exact absurd h0 (by simp)
    | none =>
      simp only [h, ih]
      constructor
      · rintro ⟨n, hn, hmin⟩
        refine ⟨n + 1, by rwa [List.drop_succ_cons], ?_⟩
        intro m hm
        cases m with
        | zero => rw [List.drop_zero]; exact h
        | succ k => rw [List.drop_succ_cons]; exact hmin k (by omega)
      · rintro ⟨n, hn, hmin⟩
        cases n with
        | zero =>
          rw [List.drop_zero, h] at hn
          exact absurd hn (by simp)
        | succ k =>
          rw [List.drop_succ_cons] at hn
          refine ⟨k, hn, fun m hm => ?_⟩
          have := hmin (m + 1) (by omega)
          rwa [List.drop_succ_cons] at this

lemma hasVideoIdPattern_iff_isSome (cs : List Char) :
    hasVideoIdPattern cs ↔ (searchVideoId cs).isSome = true := by
  constructor
  · rintro ⟨n, id, hm⟩
    cases hs : searchVideoId cs with
    | some jd => rfl
    | none =>
      rw [specMatchAt_iff_tryAt] at hm
      rw [searchVideoId_eq_none_iff] at hs
      rw [hs n] at hm
      exact absurd hm (by simp)
  · intro hs
    cases h : searchVideoId cs with
    | none => rw [h] at hs; exact absurd hs (by simp)
    | some id =>
      obtain ⟨n, hn, -⟩ := (searchVideoId_eq_some_iff cs id).1 h
      exact ⟨n, id, (specMatchAt_iff_tryAt cs n id).2 hn⟩

lemma orEmptyStr_str (u : String) : orEmptyStr (.str u) = .str u := by
  by_cases h : u = ""
  · subst h; rfl
  · simp [orEmptyStr, truthy, h]

-- ## Claim C3: the Video-ID Extractor

/-- C3.  For every state whose `video_url` is a string: when the string
contains `v=` or `/` followed by eleven characters from
`[0-9A-Za-z_-]`, `extract_video_id` succeeds and returns the state with
`video_id` set to exactly the group of the leftmost such occurrence (no
earlier position matches); when the string contains neither pattern, it
fails with the `ValueError` message "Could not extract video ID from
URL" and the state it leaves behind is untouched. -/
theorem extract_video_id_spec (state : PyState) (u : String)
    (hu : dget state "video_url" = some (.str u)) :
    (hasVideoIdPattern u.toList →
      ∃ n id, specMatchAt u.toList n id ∧
        (∀ m, m < n → ∀ jd, ¬ specMatchAt u.toList m jd) ∧
        extract_video_id state = .ok (dset state "video_id" (.str (String.mk id)))) ∧
    (¬ hasVideoIdPattern u.toList →
      extract_video_id state = .error ("Could not extract video ID from URL", state)) := by
  have hread : orEmptyStr (pyGet state "video_url") = .str u := by
    rw [pyGet, hu]
    exact orEmptyStr_str u
  constructor
  · intro hpat
    have hsome := (hasVideoIdPattern_iff_isSome u.toList).1 hpat
    cases hs : searchVideoId u.toList with
    | none => rw [hs] at hsome; exact absurd hsome (by simp)
    | some id =>
      obtain ⟨n, hn, hmin⟩ := (searchVideoId_eq_some_iff u.toList id).1 hs
      refine ⟨n, id, (specMatchAt_iff_tryAt _ _ _).2 hn, ?_, ?_⟩
      · intro m hm jd hjd
        rw [specMatchAt_iff_tryAt] at hjd
        rw [hmin m hm] at hjd
        exact absurd hjd (by simp)
      · simp only [extract_video_id, hread, hs]
  · intro hpat
    have hnone : searchVideoId u.toList = Option.none := by
      cases hs : searchVideoId u.toList with
      | none => rfl
      | some id =>
        exact absurd ((hasVideoIdPattern_iff_isSome u.toList).2 (by rw [hs]; rfl)) hpat
    simp only [extract_video_id, hread, hnone]

/-- Witness for C3 at the concrete URL "x/abcdefghijk": the pattern
occurs, and the extractor writes exactly the eleven characters after
the slash. -/
theorem extract_video_id_spec_witness :
    hasVideoIdPattern ("x/abcdefghijk" : String).toList ∧
    (∃ n id, specMatchAt ("x/abcdefghijk" : String).toList n id ∧
      (∀ m, m < n → ∀ jd, ¬ specMatchAt ("x/abcdefghijk" : String).toList m jd) ∧
      extract_video_id [("video_url", .str "x/abcdefghijk")] =
        .ok (dset [("video_url", .str "x/abcdefghijk")] "video_id"
          (.str (String.mk id)))) :=
  have hpat : hasVideoIdPattern ("x/abcdefghijk" : String).toList :=
    ⟨1, ("abcdefghijk" : String).toList,
      by decide, by decide, [], by decide⟩
  ⟨hpat, (extract_video_id_spec [("video_url", .str "x/abcdefghijk")] "x/abcdefghijk" rfl).1 hpat⟩

-- ## Claim C10: the extractor raises without mutating the state

/-- C10.  Whenever `extract_video_id` raises (for this code: the
`ValueError` on no regex match, or the `TypeError` `re.search` raises
on a non-string url), the state it leaves behind is exactly the state
it was given: `video_id` is written only on the match branch. -/
theorem extract_video_id_error_preserves_state (state st' : PyState) (e : PyErr)
    (h : extract_video_id state = .error (e, st')) : st' = state := by
  unfold extract_video_id at h
  split at h
  · split at h
    · exact absurd h (by simp)
    · rw [Except.error.injEq, Prod.mk.injEq] at h
      exact h.2.symm
  · rw [Except.error.injEq, Prod.mk.injEq] at h
    exact h.2.symm

/-- Witness for C10: on the unmatchable URL "nope" the extractor raises
and the carried state equals the input state. -/
theorem extract_video_id_error_preserves_state_witness :
    extract_video_id [("video_url", .str "nope")] =
      .error ("Could not extract video ID from URL", [("video_url", .str "nope")]) ∧
    ([("video_url", PyVal.str "nope")] : PyState) = [("video_url", PyVal.str "nope")] :=
  ⟨rfl, extract_video_id_error_preserves_state
    [("video_url", .str "nope")] [("video_url", .str "nope")]
    "Could not extract video ID from URL" rfl⟩

lemma dget_dset_self (st : PyState) (k : String) (v : PyVal) :
    dget (dset st k v) k = some v := by
  induction st with
  | nil => simp [dset, dget]
  | cons kv rest ih =>
    obtain ⟨k2, v2⟩ := kv
    by_cases h : k2 = k
    · subst h
      simp [dset, dget]
    · simp [dset, dget, h, ih]

lemma initial_state_video_url (req : PipelineRequest) :
    pyGet (initial_state req) "video_url" = .str req.video_url := by
  simp [initial_state, pyGet, dget]

-- ## Lemmas about the action runner

lemma runActions_success (C : Collaborators)
    (s2 s3 s4 s5 s6 s7 s8 s9 s10 s11 s12 s13 : PyState)
    (h1 : C.extract_specific_details s2 = .ok s3)
    (h2 : C.generate_topic_keyword s3 = .ok s4)
    (h3 : C.generate_intro (setCombinedKeywordDetails s4) = .ok s5)
    (h4 : C.refine_intro s5 = .ok s6)
    (h5 : C.generate_guide s6 = .ok s7)
    (h6 : C.generate_issue_troubleshooting s7 = .ok s8)
    (h7 : C.generate_conclusion s8 = .ok s9)
    (h8 : C.generate_cta s9 = .ok s10)
    (h9 : C.generate_customization_tips s10 = .ok s11)
    (h10 : C.domain_aligned (setCombinedData s11) = .ok s12)
    (h11 : C.rewrite_blog s12 = .ok s13) :
    runActions C pipelineActions s2 =
      (.ok s13,
       [(.gen .extractSpecificDetails, s2),
        (.gen .generateTopicKeyword, s3),
        (.gen .generateIntro, setCombinedKeywordDetails s4),
        (.gen .refineIntro, s5),
        (.gen .generateGuide, s6),
        (.gen .generateIssueTroubleshooting, s7),
        (.gen .generateConclusion, s8),
        (.gen .generateCta, s9),
        (.gen .generateCustomizationTips, s10),
        (.gen .domainAligned, setCombinedData s11),
        (.gen .rewriteBlog, s12)]) := by
  simp [pipelineActions, runActions, applyGen,
    h1, h2, h3, h4, h5, h6, h7, h8, h9, h10, h11]

lemma runActions_error_of_mem (C : Collaborators) (acts : List OrchAction)
    (g : GenStep) (s2 sIn : PyState) (e : PyErr)
    (hmem : (TraceStep.gen g, sIn) ∈ (runActions C acts s2).2)
    (herr : applyGen C g sIn = .error e) :
    (runActions C acts s2).1 = .error e := by
  induction acts generalizing s2 with
  | nil => simp [runActions] at hmem
  | cons a rest ih =>
    cases a with
    | gen g2 =>
      cases happ : applyGen C g2 s2 with
      | ok s2n =>
        simp only [runActions, happ] at hmem ⊢
        rcases List.mem_cons.1 hmem with heq | hm
        · rw [Prod.mk.injEq] at heq
          obtain ⟨hg, hs⟩ := heq
          injection hg with hg
          subst hg
          subst hs
          rw [happ] at herr
          exact absurd herr (by simp)
        · exact ih s2n hm
      | error e2 =>
        simp only [runActions, happ] at hmem ⊢
        rcases List.mem_cons.1 hmem with heq | hm
        · rw [Prod.mk.injEq] at heq
          obtain ⟨hg, hs⟩ := heq
          injection hg with hg
          subst hg
          subst hs
          rw [happ] at herr
          injection herr with herr
          rw [herr]
        · simp at hm
    | setCombinedKeywordDetails =>
      simp only [runActions] at hmem ⊢
      exact ih _ hmem
    | setCombinedData =>
      simp only [runActions] at hmem ⊢
      exact ih _ hmem

-- ## Claim C1: transcript failure short-circuits with an HTTP 200 error body

/-- C1.  For every request on which `extract_video_id` succeeds and the
transcript fetch returns an empty string or any string containing
"Failed after multiple retries", the endpoint answers the one-key body
`\x7b"error": "Transcript not available for: <video_url>"\x7d` as a plain
return — HTTP status 200, not an error status — and no generator,
aligner or rewriter is invoked: the only collaborator call on record is
the transcript fetch. -/
theorem transcript_unavailable_response (C : Collaborators) (req : PipelineRequest)
    (s1 : PyState) (t : String)
    (hx : extract_video_id (initial_state req) = .ok s1)
    (hf : C.get_transcript_with_backoff s1 = .ok t)
    (hbad : t = "" ∨ strContains t "Failed after multiple retries" = true) :
    run_pipeline C req =
      .ok [("error", .str ("Transcript not available for: " ++ req.video_url))] ∧
    (run_pipeline C req).statusCode = 200 ∧
    pipelineTrace C req = [(.fetch, s1)] := by
  have hcond : (decide (t = "") || strContains t "Failed after multiple retries") = true := by
    rcases hbad with h | h <;> simp [h]
  have hful : full_pipeline C (initial_state req) =
      (.ok [("error", .str ("Transcript not available for: " ++ req.video_url))],
       [(.fetch, s1)]) := by
    simp [full_pipeline, hx, hf, hcond, initial_state_video_url, orEmptyStr_str, fstr]
  refine ⟨?_, ?_, ?_⟩
  · rw [run_pipeline, hful]
  · rw [run_pipeline, hful]
    rfl
  · rw [pipelineTrace, hful]

/-- Witness for C1: with a fetcher returning the empty transcript, the
request `wReq` gets the HTTP 200 error body and only the fetch ran. -/
theorem transcript_unavailable_response_witness :
    emptyFetchCollab.get_transcript_with_backoff wS1 = .ok "" ∧
    run_pipeline emptyFetchCollab wReq =
      .ok [("error", .str "Transcript not available for: v=abcdefghijk")] ∧
    pipelineTrace emptyFetchCollab wReq = [(.fetch, wS1)] := by
  have h := transcript_unavailable_response emptyFetchCollab wReq wS1 ""
    rfl rfl (Or.inl rfl)
  exact ⟨rfl, h.1, h.2.2⟩

-- ## Claim C4: an unparsable video_url yields HTTP 500, nothing is invoked

/-- C4.  For every request whose `video_url` contains no occurrence of
the video-id pattern, the `ValueError` from `extract_video_id`
propagates uncaught to the endpoint, which answers HTTP 500 with detail
exactly "Could not extract video ID from URL", and neither the
transcript fetch nor any generator is invoked (the trace is empty). -/
theorem invalid_url_500 (C : Collaborators) (req : PipelineRequest)
    (hno : ¬ hasVideoIdPattern req.video_url.toList) :
    run_pipeline C req = .httpError 500 "Could not extract video ID from URL" ∧
    pipelineTrace C req = [] := by
  have hnone : searchVideoId req.video_url.toList = Option.none := by
    cases hs : searchVideoId req.video_url.toList with
    | none => rfl
    | some id =>
      exact absurd ((hasVideoIdPattern_iff_isSome _).2 (by rw [hs]; rfl)) hno
  have hx : extract_video_id (initial_state req) =
      .error ("Could not extract video ID from URL", initial_state req) := by
    simp only [extract_video_id]
    rw [initial_state_video_url, orEmptyStr_str]
    simp only [hnone]
  constructor
  · simp [run_pipeline, full_pipeline, hx]
  · simp [pipelineTrace, full_pipeline, hx]

/-- Witness for C4 at the concrete unparsable URL "nourl". -/
theorem invalid_url_500_witness :
    ¬ hasVideoIdPattern ("nourl" : String).toList ∧
    run_pipeline idCollab ⟨"nourl", "d", "r"⟩ =
      .httpError 500 "Could not extract video ID from URL" ∧
    pipelineTrace idCollab ⟨"nourl", "d", "r"⟩ = [] := by
  have hno : ¬ hasVideoIdPattern ("nourl" : String).toList := by
    rw [hasVideoIdPattern_iff_isSome]
    decide
  exact ⟨hno, invalid_url_500 idCollab ⟨"nourl", "d", "r"⟩ hno⟩

-- ## Claim C2: on full success the body is exactly the one-key Final_Blog dict

/-- C2.  For every request on which every pipeline step succeeds — the
id extraction, the fetch (non-empty, no retry sentinel), and all eleven
collaborator steps — and the rewriter leaves `final_blog` as a dict
containing "Polished_Blog", the HTTP response body is exactly the
one-key mapping `\x7b"Final_Blog": v\x7d` with `v` that "Polished_Blog"
value; no intermediate field appears in it. -/
theorem blog_success_response (C : Collaborators) (req : PipelineRequest)
    (s1 : PyState) (t : String)
    (s3 s4 s5 s6 s7 s8 s9 s10 s11 s12 s13 : PyState)
    (fb : List (String × PyVal)) (v : PyVal)
    (hx : extract_video_id (initial_state req) = .ok s1)
    (hf : C.get_transcript_with_backoff s1 = .ok t)
    (hgood : ¬ (t = "" ∨ strContains t "Failed after multiple retries" = true))
    (h1 : C.extract_specific_details (dset s1 "transcript" (.str t)) = .ok s3)
    (h2 : C.generate_topic_keyword s3 = .ok s4)
    (h3 : C.generate_intro (setCombinedKeywordDetails s4) = .ok s5)
    (h4 : C.refine_intro s5 = .ok s6)
    (h5 : C.generate_guide s6 = .ok s7)
    (h6 : C.generate_issue_troubleshooting s7 = .ok s8)
    (h7 : C.generate_conclusion s8 = .ok s9)
    (h8 : C.generate_cta s9 = .ok s10)
    (h9 : C.generate_customization_tips s10 = .ok s11)
    (h10 : C.domain_aligned (setCombinedData s11) = .ok s12)
    (h11 : C.rewrite_blog s12 = .ok s13)
    (hfb : dget s13 "final_blog" = some (.dict fb))
    (hpb : dget fb "Polished_Blog" = some v) :
    run_pipeline C req = .ok [("Final_Blog", v)] := by
  push_neg at hgood
  have hcond : (decide (t = "") || strContains t "Failed after multiple retries") = false := by
    simp [hgood.1, hgood.2]
  have hrun := runActions_success C (dset s1 "transcript" (.str t))
    s3 s4 s5 s6 s7 s8 s9 s10 s11 s12 s13 h1 h2 h3 h4 h5 h6 h7 h8 h9 h10 h11
  simp [run_pipeline, full_pipeline, hx, hf, hcond, hrun,
    pyIndexState, pyIndexVal, hfb, hpb]

/-- Witness for C2: well-behaved collaborators on `wReq` produce
exactly the body with the single key Final_Blog holding "B". -/
theorem blog_success_response_witness :
    run_pipeline idCollab wReq = .ok [("Final_Blog", .str "B")] :=
  blog_success_response idCollab wReq wS1 "T"
    wS2 wS2 wS3 wS3 wS3 wS3 wS3 wS3 wS3 wS4 wS5
    [("Polished_Blog", .str "B")] (.str "B")
    rfl rfl (by decide) rfl rfl rfl rfl rfl rfl rfl rfl rfl rfl rfl rfl rfl

-- ## Claim C5: generator invocation order (corrected)

/-- Counterexample to C5 as stated: with collaborators whose intro
generator raises, the transcript fetch succeeds (non-empty, no
sentinel) yet `generate_guide` is invoked zero times — not exactly
once — because the exception aborts the pipeline. -/
theorem generators_once_counterexample :
    extract_video_id (initial_state wReq) = .ok wS1 ∧
    failCollab.get_transcript_with_backoff wS1 = .ok "T" ∧
    ¬ ("T" = "" ∨ strContains "T" "Failed after multiple retries" = true) ∧
    (pipelineTrace failCollab wReq).countP
      (fun en => match en.1 with
        | TraceStep.gen GenStep.generateGuide => true
        | _ => false) = 0 :=
  ⟨rfl, rfl, by decide, rfl⟩

/-- C5 (amended).  For every request whose transcript fetch succeeds
(non-empty, no sentinel) and on which every collaborator invocation
returns successfully, each of the eleven collaborator steps is invoked
exactly once, in the fixed source order, and each invocation receives
the state accumulated from all prior steps (including the two dict
combinations the orchestrator itself writes in between); when an
invocation raises, the steps after it are not invoked at all. -/
theorem generators_invoked_in_order (C : Collaborators) (req : PipelineRequest)
    (s1 : PyState) (t : String)
    (s3 s4 s5 s6 s7 s8 s9 s10 s11 s12 s13 : PyState)
    (hx : extract_video_id (initial_state req) = .ok s1)
    (hf : C.get_transcript_with_backoff s1 = .ok t)
    (hgood : ¬ (t = "" ∨ strContains t "Failed after multiple retries" = true))
    (h1 : C.extract_specific_details (dset s1 "transcript" (.str t)) = .ok s3)
    (h2 : C.generate_topic_keyword s3 = .ok s4)
    (h3 : C.generate_intro (setCombinedKeywordDetails s4) = .ok s5)
    (h4 : C.refine_intro s5 = .ok s6)
    (h5 : C.generate_guide s6 = .ok s7)
    (h6 : C.generate_issue_troubleshooting s7 = .ok s8)
    (h7 : C.generate_conclusion s8 = .ok s9)
    (h8 : C.generate_cta s9 = .ok s10)
    (h9 : C.generate_customization_tips s10 = .ok s11)
    (h10 : C.domain_aligned (setCombinedData s11) = .ok s12)
    (h11 : C.rewrite_blog s12 = .ok s13) :
    pipelineTrace C req =
      [(.fetch, s1),
       (.gen .extractSpecificDetails, dset s1 "transcript" (.str t)),
       (.gen .generateTopicKeyword, s3),
       (.gen .generateIntro, setCombinedKeywordDetails s4),
       (.gen .refineIntro, s5),
       (.gen .generateGuide, s6),
       (.gen .generateIssueTroubleshooting, s7),
       (.gen .generateConclusion, s8),
       (.gen .generateCta, s9),
       (.gen .generateCustomizationTips, s10),
       (.gen .domainAligned, setCombinedData s11),
       (.gen .rewriteBlog, s12)] := by
  push_neg at hgood
  have hcond : (decide (t = "") || strContains t "Failed after multiple retries") = false := by
    simp [hgood.1, hgood.2]
  have hrun := runActions_success C (dset s1 "transcript" (.str t))
    s3 s4 s5 s6 s7 s8 s9 s10 s11 s12 s13 h1 h2 h3 h4 h5 h6 h7 h8 h9 h10 h11
  simp [pipelineTrace, full_pipeline, hx, hf, hcond, hrun]

/-- Witness for the amended C5: with well-behaved collaborators the
recorded trace is exactly the eleven steps in order, each fed the
accumulated state. -/
theorem generators_invoked_in_order_witness :
    pipelineTrace idCollab wReq =
      [(.fetch, wS1),
       (.gen .extractSpecificDetails, wS2),
       (.gen .generateTopicKeyword, wS2),
       (.gen .generateIntro, wS3),
       (.gen .refineIntro, wS3),
       (.gen .generateGuide, wS3),
       (.gen .generateIssueTroubleshooting, wS3),
       (.gen .generateConclusion, wS3),
       (.gen .generateCta, wS3),
       (.gen .generateCustomizationTips, wS3),
       (.gen .domainAligned, wS4),
       (.gen .rewriteBlog, wS4)] :=
  generators_invoked_in_order idCollab wReq wS1 "T"
    wS2 wS2 wS3 wS3 wS3 wS3 wS3 wS3 wS3 wS4 wS5
    rfl rfl (by decide) rfl rfl rfl rfl rfl rfl rfl rfl rfl rfl rfl

-- ## Claim C6: collaborator exceptions reach the endpoint unchanged

/-- C6.  For every request and every generator step (including the
domain aligner and the rewriter) that the pipeline actually invoked on
some state, if that invocation raised an exception then the orchestrator
never swallows it: the endpoint answers HTTP 500 with exactly that
exception's message as the detail. -/
theorem collaborator_exception_propagates (C : Collaborators) (req : PipelineRequest)
    (g : GenStep) (s : PyState) (e : PyErr)
    (hmem : (TraceStep.gen g, s) ∈ pipelineTrace C req)
    (herr : applyGen C g s = .error e) :
    run_pipeline C req = .httpError 500 e := by
  unfold pipelineTrace at hmem
  unfold run_pipeline
  cases hx : extract_video_id (initial_state req) with
  | error pr =>
    simp only [full_pipeline, hx] at hmem
    exact absurd hmem (by simp)
  | ok s1 =>
    cases hf : C.get_transcript_with_backoff s1 with
    | error e2 =>
      simp only [full_pipeline, hx, hf] at hmem
      simp at hmem
    | ok t =>
      cases hcond : (decide (t = "") || strContains t "Failed after multiple retries") with
      | true =>
        simp only [full_pipeline, hx, hf, hcond, if_true] at hmem
        simp at hmem
      | false =>
        have hres := runActions_error_of_mem C pipelineActions g
          (dset s1 "transcript" (.str t)) s e ?memgoal herr
        case memgoal =>
          simp only [full_pipeline, hx, hf, hcond, Bool.false_eq_true,
            if_false] at hmem
          rcases List.mem_cons.1 hmem with heq | hm
          · exact absurd heq (by simp)
          · exact hm
        simp only [full_pipeline, hx, hf, hcond, Bool.false_eq_true, if_false, hres]

/-- Witness for C6: `failCollab`'s intro generator raises "boom" on the
combined state, that invocation is on the trace, and the endpoint
answers HTTP 500 with detail "boom". -/
theorem collaborator_exception_propagates_witness :
    applyGen failCollab .generateIntro wS3 = .error "boom" ∧
    run_pipeline failCollab wReq = .httpError 500 "boom" := by
  have hmem : (TraceStep.gen GenStep.generateIntro, wS3) ∈ pipelineTrace failCollab wReq := by
    rw [show pipelineTrace failCollab wReq =
      [(.fetch, wS1),
       (.gen .extractSpecificDetails, wS2),
       (.gen .generateTopicKeyword, wS2),
       (.gen .generateIntro, wS3)] from rfl]
    exact .tail _ (.tail _ (.tail _ (.head _)))
  exact ⟨rfl, collaborator_exception_propagates failCollab wReq .generateIntro wS3 "boom" hmem rfl⟩

-- ## Claim C7: the keyword/details combination at the moment of construction

/-- C7.  On every execution that reaches the construction of
`combined_data_keyword_specific_details` (id extraction and fetch
succeeded with a usable transcript, the first two generators returned),
the state handed to the very next step carries under that key exactly
the two-key dict whose "topic_keyword" is the current
`extracted_keywords` value and whose "specific_details" is the current
`extracted_section` value of the state the generators produced. -/
theorem combined_keyword_details_at_construction (C : Collaborators)
    (req : PipelineRequest) (s1 : PyState) (t : String) (s3 s4 : PyState)
    (hx : extract_video_id (initial_state req) = .ok s1)
    (hf : C.get_transcript_with_backoff s1 = .ok t)
    (hgood : ¬ (t = "" ∨ strContains t "Failed after multiple retries" = true))
    (h1 : C.extract_specific_details (dset s1 "transcript" (.str t)) = .ok s3)
    (h2 : C.generate_topic_keyword s3 = .ok s4) :
    (∃ rest, pipelineTrace C req =
      [(.fetch, s1),
       (.gen .extractSpecificDetails, dset s1 "transcript" (.str t)),
       (.gen .generateTopicKeyword, s3),
       (.gen .generateIntro, setCombinedKeywordDetails s4)] ++ rest) ∧
    dget (setCombinedKeywordDetails s4) "combined_data_keyword_specific_details" =
      some (.dict [("topic_keyword", pyGet s4 "extracted_keywords"),
                   ("specific_details", pyGet s4 "extracted_section")]) := by
  push_neg at hgood
  have hcond : (decide (t = "") || strContains t "Failed after multiple retries") = false := by
    simp [hgood.1, hgood.2]
  refine ⟨?_, dget_dset_self _ _ _⟩
  cases happ : C.generate_intro (setCombinedKeywordDetails s4) with
  | ok s5 =>
    exact ⟨(runActions C
        [.gen .refineIntro, .gen .generateGuide, .gen .generateIssueTroubleshooting,
         .gen .generateConclusion, .gen .generateCta, .gen .generateCustomizationTips,
         .setCombinedData, .gen .domainAligned, .gen .rewriteBlog] s5).2,
      by simp [pipelineTrace, full_pipeline, hx, hf, hcond,
        pipelineActions, runActions, applyGen, h1, h2, happ]⟩
  | error e =>
    exact ⟨[], by simp [pipelineTrace, full_pipeline, hx, hf, hcond,
      pipelineActions, runActions, applyGen, h1, h2, happ]⟩

/-- Witness for C7 on `wReq` with well-behaved collaborators. -/
theorem combined_keyword_details_at_construction_witness :
    (∃ rest, pipelineTrace idCollab wReq =
      [(.fetch, wS1),
       (.gen .extractSpecificDetails, wS2),
       (.gen .generateTopicKeyword, wS2),
       (.gen .generateIntro, wS3)] ++ rest) ∧
    dget wS3 "combined_data_keyword_specific_details" =
      some (.dict [("topic_keyword", pyGet wS2 "extracted_keywords"),
                   ("specific_details", pyGet wS2 "extracted_section")]) :=
  combined_keyword_details_at_construction idCollab wReq wS1 "T" wS2 wS2
    rfl rfl (by decide) rfl rfl

-- ## Claim C8: on the success path the Polished_Blog lookup cannot fail

/-- C8.  Under the precondition that the rewriter returned a state whose
`final_blog` is a dict containing the key "Polished_Blog" — and the
pipeline reached the rewriter — both subscripts of
`state["final_blog"]["Polished_Blog"]` are defined (each evaluates to
`.ok`, never to its KeyError/TypeError branch), so the orchestrator
returns normally with that value. -/
theorem polished_blog_lookup_defined (C : Collaborators) (s0 : PyState)
    (s1 : PyState) (t : String)
    (s3 s4 s5 s6 s7 s8 s9 s10 s11 s12 s13 : PyState)
    (fb : List (String × PyVal)) (v : PyVal)
    (hx : extract_video_id s0 = .ok s1)
    (hf : C.get_transcript_with_backoff s1 = .ok t)
    (hgood : ¬ (t = "" ∨ strContains t "Failed after multiple retries" = true))
    (h1 : C.extract_specific_details (dset s1 "transcript" (.str t)) = .ok s3)
    (h2 : C.generate_topic_keyword s3 = .ok s4)
    (h3 : C.generate_intro (setCombinedKeywordDetails s4) = .ok s5)
    (h4 : C.refine_intro s5 = .ok s6)
    (h5 : C.generate_guide s6 = .ok s7)
    (h6 : C.generate_issue_troubleshooting s7 = .ok s8)
    (h7 : C.generate_conclusion s8 = .ok s9)
    (h8 : C.generate_cta s9 = .ok s10)
    (h9 : C.generate_customization_tips s10 = .ok s11)
    (h10 : C.domain_aligned (setCombinedData s11) = .ok s12)
    (h11 : C.rewrite_blog s12 = .ok s13)
    (hfb : dget s13 "final_blog" = some (.dict fb))
    (hpb : dget fb "Polished_Blog" = some v) :
    pyIndexState s13 "final_blog" = .ok (.dict fb) ∧
    pyIndexVal (.dict fb) "Polished_Blog" = .ok v ∧
    (full_pipeline C s0).1 = .ok [("Final_Blog", v)] := by
  push_neg at hgood
  have hcond : (decide (t = "") || strContains t "Failed after multiple retries") = false := by
    simp [hgood.1, hgood.2]
  have hrun := runActions_success C (dset s1 "transcript" (.str t))
    s3 s4 s5 s6 s7 s8 s9 s10 s11 s12 s13 h1 h2 h3 h4 h5 h6 h7 h8 h9 h10 h11
  refine ⟨by simp [pyIndexState, hfb], by simp [pyIndexVal, hpb], ?_⟩
  simp [full_pipeline, hx, hf, hcond, hrun, pyIndexState, pyIndexVal, hfb, hpb]

/-- Witness for C8 with `idCollab` from `wReq`'s initial state. -/
theorem polished_blog_lookup_defined_witness :
    pyIndexState wS5 "final_blog" = .ok (.dict [("Polished_Blog", .str "B")]) ∧
    pyIndexVal (.dict [("Polished_Blog", .str "B")]) "Polished_Blog" = .ok (.str "B") ∧
    (full_pipeline idCollab (initial_state wReq)).1 = .ok [("Final_Blog", .str "B")] :=
  polished_blog_lookup_defined idCollab (initial_state wReq) wS1 "T"
    wS2 wS2 wS3 wS3 wS3 wS3 wS3 wS3 wS3 wS4 wS5
    [("Polished_Blog", .str "B")] (.str "B")
    rfl rfl (by decide) rfl rfl rfl rfl rfl rfl rfl rfl rfl rfl rfl rfl rfl

-- ## Claim C9: a returned result has exactly one of "error"/"Final_Blog"

/-- C9.  Every result the orchestrator returns (rather than raising)
contains exactly one of the keys "error" and "Final_Blog": the
transcript-failure path yields a dict with only "error", the success
path a dict with only "Final_Blog" — never both, never neither. -/
theorem result_error_xor_final_blog (C : Collaborators) (s0 : PyState) (r : PyState)
    (h : (full_pipeline C s0).1 = .ok r) :
    ((dget r "error").isSome = true ∧ dget r "Final_Blog" = Option.none) ∨
    ((dget r "Final_Blog").isSome = true ∧ dget r "error" = Option.none) := by
  cases hx : extract_video_id s0 with
  | error pr =>
    obtain ⟨e2, st2⟩ := pr
    simp only [full_pipeline, hx] at h
    exact absurd h (by simp)
  | ok s1 =>
    cases hf : C.get_transcript_with_backoff s1 with
    | error e2 =>
      simp only [full_pipeline, hx, hf] at h
      exact absurd h (by simp)
    | ok t =>
      cases hcond : (decide (t = "") || strContains t "Failed after multiple retries") with
      | true =>
        simp only [full_pipeline, hx, hf, hcond, if_true] at h
        rw [Except.ok.injEq] at h
        subst h
        left
        constructor <;> simp [dget]
      | false =>
        simp only [full_pipeline, hx, hf, hcond, Bool.false_eq_true, if_false] at h
        rcases hra : runActions C pipelineActions (dset s1 "transcript" (.str t))
          with ⟨rr, tr⟩
        rw [hra] at h
        cases rr with
        | error e2 => exact absurd h (by simp)
        | ok sEnd =>
          cases hidx : pyIndexState sEnd "final_blog" with
          | error e2 =>
            simp only [hidx] at h
            exact absurd h (by simp)
          | ok fb =>
            simp only [hidx] at h
            cases hpv : pyIndexVal fb "Polished_Blog" with
            | error e2 =>
              simp only [hpv] at h
              exact absurd h (by simp)
            | ok v =>
              simp only [hpv] at h
              rw [Except.ok.injEq] at h
              subst h
              right
              constructor <;> simp [dget]

/-- Witness for C9: the transcript-failure run of `wReq` returns a body
whose only key is "error". -/
theorem result_error_xor_final_blog_witness :
    (full_pipeline emptyFetchCollab (initial_state wReq)).1 =
      .ok [("error", .str "Transcript not available for: v=abcdefghijk")] ∧
    (((dget [("error", PyVal.str "Transcript not available for: v=abcdefghijk")]
        "error").isSome = true ∧
      dget [("error", PyVal.str "Transcript not available for: v=abcdefghijk")]
        "Final_Blog" = Option.none) ∨
     ((dget [("error", PyVal.str "Transcript not available for: v=abcdefghijk")]
        "Final_Blog").isSome = true ∧
      dget [("error", PyVal.str "Transcript not available for: v=abcdefghijk")]
        "error" = Option.none)) :=
  ⟨rfl, result_error_xor_final_blog emptyFetchCollab (initial_state wReq) _ rfl⟩
